import Mathlib

/-
Verification of the Oberheim Matrix 1000 MIDI protocol driver
(Matrix1000.h / Matrix1000_GlobalSettings.h).

Shallow embedding conventions:
- `uint8` values are `Nat` with explicit `% 256` at truncation points.
- A JUCE `MidiMessage` is either an empty default-constructed message or a
  SysEx message carrying its payload (the bytes between the 0xF0/0xF7 framing,
  which is what `getSysExData` returns).
- C++ functions returning a `std::vector<uint8>` become functions on `List Nat`.
- `unescapeSysex` is embedded totally: the one out-of-bounds read the C++ code
  can perform (reading `sysExData[index + 1]` when only one byte remains at the
  start of the loop) is modelled by the `Option` value `none`; every in-bounds
  execution returns `some` of the vector the C++ code returns.
-/

set_option maxRecDepth 8000

namespace Matrix1000

/-- MIDI_ID enum: OBERHEIM = 0x10. -/
def OBERHEIM : Nat := 0x10

/-- MIDI_ID enum: MATRIX6_1000 = 0x06. -/
def MATRIX6_1000 : Nat := 0x06

/-- MIDI_COMMAND enum: SINGLE_PATCH_DATA = 0x01. -/
def SINGLE_PATCH_DATA : Nat := 0x01

/-- MIDI_COMMAND enum: REQUEST_DATA = 0x04. -/
def REQUEST_DATA : Nat := 0x04

/-- MIDI_COMMAND enum: SET_BANK = 0x0a. -/
def SET_BANK : Nat := 0x0a

/-- MIDI_COMMAND enum: BANK_UNLOCK = 0x0c. -/
def BANK_UNLOCK : Nat := 0x0c

/-- MIDI_COMMAND enum: STORE_EDIT_BUFFER = 0x0e. -/
def STORE_EDIT_BUFFER : Nat := 0x0e

/-- REQUEST_TYPE enum: BANK_AND_MASTER = 0x00. -/
def BANK_AND_MASTER : Nat := 0x00

/-- REQUEST_TYPE enum: SINGLE_PATCH = 0x01. -/
def SINGLE_PATCH : Nat := 0x01

/-- REQUEST_TYPE enum: EDIT_BUFFER = 0x04. -/
def EDIT_BUFFER : Nat := 0x04

/-- A JUCE MidiMessage as far as this driver observes it: either a
default-constructed (non-SysEx) message, or a SysEx message with its payload
(the bytes between the framing bytes, as returned by getSysExData). -/
inductive MidiMessage where
  | empty : MidiMessage
  | sysex : List Nat → MidiMessage
deriving DecidableEq

/-- juce MidiMessage::isSysEx. -/
def isSysEx : MidiMessage → Bool
  | .empty => false
  | .sysex _ => true

/-- juce MidiMessage::getSysExData (as the payload list). -/
def getSysExData : MidiMessage → List Nat
  | .empty => []
  | .sysex p => p

/-- juce MidiMessage::getSysExDataSize. -/
def getSysExDataSize (m : MidiMessage) : Nat := (getSysExData m).length

/-- Matrix1000::numberOfBanks. -/
def numberOfBanks : Nat := 10

/-- Matrix1000::numberOfPatches (patches per bank). -/
def numberOfPatches : Nat := 100

/-- Matrix1000::isOwnSysex: sysex, size > 1, data[0] == OBERHEIM,
data[1] == MATRIX6_1000. -/
def isOwnSysex (m : MidiMessage) : Bool :=
  isSysEx m
    && decide (1 < getSysExDataSize m)
    && ((getSysExData m).getD 0 0 == OBERHEIM)
    && ((getSysExData m).getD 1 0 == MATRIX6_1000)

/-- Matrix1000::isEditBufferDump: isOwnSysex, size > 3,
data[2] == SINGLE_PATCH_DATA, data[3] == 0x00. -/
def isEditBufferDump (m : MidiMessage) : Bool :=
  isOwnSysex m
    && decide (3 < getSysExDataSize m)
    && ((getSysExData m).getD 2 0 == SINGLE_PATCH_DATA)
    && ((getSysExData m).getD 3 0 == 0)

/-- Matrix1000::isSingleProgramDump: isOwnSysex, size > 3,
data[2] == SINGLE_PATCH_DATA, data[3] >= 0x00 and data[3] < 100.
(The `>= 0x00` comparison is on a uint8 in the source and is vacuously true;
it is kept here for faithfulness.) -/
def isSingleProgramDump (m : MidiMessage) : Bool :=
  isOwnSysex m
    && decide (3 < getSysExDataSize m)
    && ((getSysExData m).getD 2 0 == SINGLE_PATCH_DATA)
    && decide (0 ≤ (getSysExData m).getD 3 0)
    && decide ((getSysExData m).getD 3 0 < 100)

/-- Matrix1000::isBankDump: delegates to isSingleProgramDump
("is part of bank dump"). -/
def isBankDump (m : MidiMessage) : Bool := isSingleProgramDump m

/-- Matrix1000::isBankDumpFinished: counts the messages of the stream that are
single program dumps (`found++` in a loop) and compares the count with
numberOfPatches(). -/
def isBankDumpFinished (bankDump : List MidiMessage) : Bool :=
  bankDump.countP isSingleProgramDump == numberOfPatches

/-- Matrix1000::unescapeSysex, loop state. First argument: the not yet consumed
input bytes; second: the already produced output (reversed); third: the running
uint8 checksum. The C++ loop reads `sysExData[index]` and `sysExData[index+1]`,
appends `sysExData[index] | sysExData[index+1] << 4` truncated to uint8, adds it
to the uint8 checksum, and, when exactly one input byte remains, compares that
byte with `checksum & 0x7f`: on match it returns the result, on mismatch it
clears the result and returns the empty vector. When one byte remains at the
start of an iteration (only possible when the whole input has length 1) the
read of `sysExData[index + 1]` is out of bounds: that execution is `none`. -/
def unescapeAux : List Nat → List Nat → Nat → Option (List Nat)
  | [], acc, _ => some acc.reverse
  | [_], _, _ => none
  | [lo, hi, c], acc, chk =>
      if c = ((chk + (lo ||| (hi <<< 4)) % 256) % 256) % 128
      then some (((lo ||| (hi <<< 4)) % 256 :: acc).reverse)
      else some []
  | lo :: hi :: rest, acc, chk =>
      unescapeAux rest ((lo ||| (hi <<< 4)) % 256 :: acc) ((chk + (lo ||| (hi <<< 4)) % 256) % 256)

/-- Matrix1000::unescapeSysex. -/
def unescapeSysex (sysExData : List Nat) : Option (List Nat) :=
  unescapeAux sysExData [] 0

/-- The nibble stream of Matrix1000::escapeSysex: for each input byte, its low
nibble `byte & 0x0f = byte % 16` followed by its high nibble
`(byte & 0xf0) >> 4 = byte / 16 % 16`. -/
def nibbles (b : List Nat) : List Nat := b.flatMap fun x => [x % 16, x / 16 % 16]

/-- Matrix1000::escapeSysex: the nibble stream followed by the checksum byte
`checksum & 0x7f`, where checksum is the (untruncated `int`) sum of the input
bytes. -/
def escapeSysex (programEditBuffer : List Nat) : List Nat :=
  nibbles programEditBuffer ++ [programEditBuffer.sum % 128]

/-- Matrix1000::patchFromSysex: on a message that is not an edit buffer dump it
(debug-asserts and) returns a patch holding the empty PatchData; otherwise it
unescapes the payload from byte 4 on and returns a patch holding that data.
The value is the patch's data. -/
def patchFromSysex (message : MidiMessage) : Option (List Nat) :=
  if isEditBufferDump message = false then some []
  else unescapeSysex ((getSysExData message).drop 4)

/-- MidiBankNumber (a framework class, not part of this repository): a
zero-based bank number. -/
structure MidiBankNumber where
  zeroBased : Int
deriving DecidableEq

/-- Modelled from the spec: MidiBankNumber validity — the class itself is not
part of this repository; the spec constrains bank numbers to [0, 10)
("bank ∈ [0,10)", numberOfBanks = 10). -/
def MidiBankNumber.isValid (b : MidiBankNumber) : Bool :=
  decide (0 ≤ b.zeroBased ∧ b.zeroBased < 10)

/-- MidiBankNumber::fromZeroBase. -/
def MidiBankNumber.fromZeroBase (n : Int) : MidiBankNumber := ⟨n⟩

/-- MidiBankNumber::toZeroBased. -/
def MidiBankNumber.toZeroBased (b : MidiBankNumber) : Int := b.zeroBased

/-- Matrix1000::createBankSelect: an invalid bank number (debug-asserts and)
returns the default-constructed MidiMessage; otherwise the SET_BANK message. -/
def createBankSelect (bankNo : MidiBankNumber) : MidiMessage :=
  if bankNo.isValid = false then .empty
  else .sysex [OBERHEIM, MATRIX6_1000, SET_BANK, (bankNo.toZeroBased % 256).toNat]

/-- Matrix1000::createBankUnlock. -/
def createBankUnlock : MidiMessage :=
  .sysex [OBERHEIM, MATRIX6_1000, BANK_UNLOCK]

/-- Matrix1000::createRequest: `[OBERHEIM, MATRIX6_1000, REQUEST_DATA, typeNo,
typeNo == SINGLE_PATCH ? number : 0]`, with uint8 casts on the last two bytes.
`number` is a uint8 at the call sites. -/
def createRequest (typeNo : Nat) (number : Nat) : MidiMessage :=
  .sysex [OBERHEIM, MATRIX6_1000, REQUEST_DATA, typeNo % 256,
          (if typeNo = SINGLE_PATCH then number else 0) % 256]

/-- Matrix1000::saveEditBufferToProgram: debug-asserts
`0 <= programNumber < 1000` (a no-op in release builds) and unconditionally
returns the STORE_EDIT_BUFFER message with
`num = (uint8)(programNumber % 100)` and `bank = (uint8)(programNumber / 100)`. -/
def saveEditBufferToProgram (programNumber : Nat) : MidiMessage :=
  .sysex [OBERHEIM, MATRIX6_1000, STORE_EDIT_BUFFER,
          programNumber % 100 % 256, programNumber / 100 % 256, 0]

/-- Matrix1000::requestPatch: debug-asserts the range (a no-op in release
builds), then emits bank select of `(uint8)(programNumber / 100)`, bank unlock,
and a SINGLE_PATCH data request whose number byte is `(uint8) programNumber`. -/
def requestPatch (programNumber : Nat) : List MidiMessage :=
  [createBankSelect (MidiBankNumber.fromZeroBase (Int.ofNat (programNumber / 100 % 256))),
   createBankUnlock,
   createRequest SINGLE_PATCH (programNumber % 256)]

/-- ValueType of the framework's TypedNamedValue. -/
inductive ValueType where
  | Integer
  | Bool
  | Lookup
deriving DecidableEq

/-- The static content of a TypedNamedValue as used in the global settings
table: name, section ("group" column), value type, min, max, and the lookup
(enum choice) list. The runtime `Value()` holder carries no static content and
is omitted. -/
structure TypedNamedValue where
  name : String
  sectionName : String
  valueType : ValueType
  minValue : Int
  maxValue : Int
  lookup : List (Nat × String)
deriving DecidableEq

/-- struct Matrix1000GlobalSettingDefinition: sysexIndex, typedNamedValue,
isTwosComplement, displayOffset. Fields omitted in the C++ aggregate
initializers are value-initialized (false / 0); they are written out
explicitly here. -/
structure Matrix1000GlobalSettingDefinition where
  sysexIndex : Nat
  typedNamedValue : TypedNamedValue
  isTwosComplement : Bool
  displayOffset : Int
deriving DecidableEq

/-- The static table kMatrix1000GlobalSettings, row for row. -/
def kMatrix1000GlobalSettings : List Matrix1000GlobalSettingDefinition :=
  [ ⟨34, ⟨"Master Transpose", "Tuning", .Integer, -24, 24, []⟩, true, 0⟩,
    ⟨8, ⟨"Master Tune", "Tuning", .Integer, -32, 32, []⟩, true, 0⟩,
    ⟨11, ⟨"MIDI Basic Channel", "MIDI", .Integer, 1, 16, []⟩, false, 1⟩,
    ⟨12, ⟨"MIDI OMNI Mode Enable", "MIDI", .Bool, 0, 1, []⟩, false, 0⟩,
    ⟨13, ⟨"MIDI Controllers enable", "MIDI", .Bool, 0, 1, []⟩, false, 0⟩,
    ⟨14, ⟨"MIDI Patch Changes Enable", "MIDI", .Bool, 0, 1, []⟩, false, 0⟩,
    ⟨17, ⟨"MIDI Pedal 1 Controller", "MIDI", .Integer, 0, 121, []⟩, false, 0⟩,
    ⟨18, ⟨"MIDI Pedal 2 Controller", "MIDI", .Integer, 0, 121, []⟩, false, 0⟩,
    ⟨19, ⟨"MIDI Pedal 3 Controller", "MIDI", .Integer, 0, 121, []⟩, false, 0⟩,
    ⟨20, ⟨"MIDI Pedal 4 Controller", "MIDI", .Integer, 0, 121, []⟩, false, 0⟩,
    ⟨32, ⟨"MIDI Echo Enable", "MIDI", .Bool, 0, 1, []⟩, false, 0⟩,
    ⟨35, ⟨"MIDI Mono Mode (Guitar)", "MIDI", .Integer, 0, 9, []⟩, false, 0⟩,
    ⟨165, ⟨"Bank Lock Enable", "MIDI", .Bool, 0, 1, []⟩, false, 0⟩,
    ⟨4, ⟨"Vibrato Waveform", "Global Vibrato", .Lookup, 0, 7,
      [(0, "Triangle"), (1, "Saw up"), (2, "Saw Down"), (3, "Square"),
       (4, "Random"), (5, "Noise")]⟩, false, 0⟩,
    ⟨1, ⟨"Vibrato Speed", "Global Vibrato", .Integer, 0, 63, []⟩, false, 0⟩,
    ⟨5, ⟨"Vibrato Amplitude", "Global Vibrato", .Integer, 0, 63, []⟩, false, 0⟩,
    ⟨2, ⟨"Vibrato Speed Mod Source", "Global Vibrato", .Lookup, 0, 2,
      [(0, "Off"), (1, "Lever 2"), (2, "Pedal 1")]⟩, false, 0⟩,
    ⟨3, ⟨"Vibrato Speed Mod Amount", "Global Vibrato", .Integer, 0, 63, []⟩, false, 0⟩,
    ⟨6, ⟨"Vibrato Amp Mod Source", "Global Vibrato", .Lookup, 0, 2,
      [(0, "Off"), (1, "Lever 2"), (2, "Pedal 1")]⟩, false, 0⟩,
    ⟨7, ⟨"Vibrato Amp Mod Amount", "Global Vibrato", .Integer, 0, 63, []⟩, false, 0⟩,
    ⟨164, ⟨"Bend Range", "Controls", .Integer, 1, 24, []⟩, false, 0⟩,
    ⟨166, ⟨"Number of Units", "Group Mode", .Integer, 1, 6, []⟩, false, 0⟩,
    ⟨167, ⟨"Current Unit Number", "Group Mode", .Integer, 0, 7, []⟩, false, 0⟩,
    ⟨168, ⟨"Group Mode Enable", "Group Mode", .Bool, 0, 1, []⟩, false, 0⟩,
    ⟨169, ⟨"Unison Enable", "General", .Bool, 0, 1, []⟩, false, 0⟩,
    ⟨170, ⟨"Volume Invert Enable", "General", .Bool, 0, 1, []⟩, false, 0⟩,
    ⟨171, ⟨"Memory Protect Enable", "General", .Bool, 0, 1, []⟩, false, 0⟩ ]

/-- The C++ cast `(int8) x` for an `int` value: two's-complement truncation to
a signed 8-bit value. -/
def toInt8 (x : Int) : Int := (x + 128) % 256 - 128

/-- Matrix1000::setGlobalSettingsFromDataFile, after the initial unescapeSysex
call: given the unescaped settings array, when its length is exactly 172 it
sets, for each table row, the value `settingsArray[sysexIndex] + displayOffset`,
reinterpreted as signed 8-bit when the row isTwosComplement and the value
exceeds 127; any other length logs a message, sets nothing, and only
debug-asserts. The result is the list of values set, in table order. (The
guard `i < settingsArray.size()` of the source loop is vacuous here: the table
has fewer than 172 rows.) -/
def setGlobalSettingsFromUnescaped (settingsArray : List Nat) : List Int :=
  if settingsArray.length = 172 then
    kMatrix1000GlobalSettings.map (fun d =>
      let intValue : Int := (settingsArray.getD d.sysexIndex 0 : Int) + d.displayOffset
      if d.isTwosComplement then
        (if 127 < intValue then toInt8 intValue else intValue)
      else intValue)
  else []

/-- A single program dump message for program number n, as the Matrix 1000
emits it during a bank dump (header and program number byte; trailing patch
data is irrelevant to the classifiers used here). -/
def progDump (n : Nat) : MidiMessage :=
  .sysex [OBERHEIM, MATRIX6_1000, SINGLE_PATCH_DATA, n % 256]

/-- The byte pairs of a wire buffer, decoded exactly as the unescape loop does,
with no checksum handling: each pair (lo, hi) yields `lo | hi << 4` truncated
to uint8; a trailing odd byte is ignored. -/
def decodePairs : List Nat → List Nat
  | lo :: hi :: rest => (lo ||| (hi <<< 4)) % 256 :: decodePairs rest
  | _ => []

/-- A 172-byte settings block whose byte 34 is 0xFE and all other bytes 0. -/
def block172 : List Nat := List.replicate 34 0 ++ 254 :: List.replicate 137 0

end Matrix1000

namespace Matrix1000

/-- Reconstructing a uint8 from its low and high nibble, the way the unescape
loop does, gives the byte back. -/
theorem byte_of_nibbles :
    ∀ x : Nat, x < 256 → (x % 16 ||| ((x / 16 % 16) <<< 4)) % 256 = x := by
  decide

/-- Generalized round-trip invariant: running the unescape loop on the nibble
stream of a nonempty byte list followed by the matching checksum byte, from any
accumulator and any checksum state, appends exactly that byte list. -/
theorem unescapeAux_escape : ∀ (b : List Nat), b ≠ [] → (∀ x ∈ b, x < 256) →
    ∀ (acc : List Nat) (s : Nat),
    unescapeAux (nibbles b ++ [(s + b.sum) % 128]) acc (s % 256) = some (acc.reverse ++ b)
  | [], hb, _, _, _ => absurd rfl hb
  | [x], _, hx, acc, s => by
      have h256 : x < 256 := hx x (by simp)
      have hbyte : (x % 16 ||| ((x / 16 % 16) <<< 4)) % 256 = x := byte_of_nibbles x h256
      simp only [nibbles, List.flatMap_cons, List.flatMap_nil, List.append_nil,
        List.cons_append, List.nil_append, List.sum_cons, List.sum_nil, Nat.add_zero]
      simp only [unescapeAux, hbyte]
      rw [if_pos (by omega)]
      simp
  | x :: y :: b2, _, hx, acc, s => by
      have h256 : x < 256 := hx x (by simp)
      have hbyte : (x % 16 ||| ((x / 16 % 16) <<< 4)) % 256 = x := byte_of_nibbles x h256
      have ih := unescapeAux_escape (y :: b2) (by simp)
        (fun z hz => hx z (List.mem_cons_of_mem x hz)) (x :: acc) (s + x)
      simp only [nibbles, List.flatMap_cons, List.cons_append, List.append_assoc,
        List.sum_cons, List.nil_append] at ih ⊢
      simp only [unescapeAux, hbyte]
      have hchk : (s % 256 + x) % 256 = (s + x) % 256 := by omega
      have hsum : s + (x + (y + b2.sum)) = s + x + (y + b2.sum) := by omega
      rw [hchk, hsum, ih]
      simp

/-- C1: unpacking the packed wire form of any nonempty byte sequence (hence in
particular any sequence of the patch's fixed unpacked length) returns the
sequence unchanged: escapeSysex emits low nibble then high nibble per byte plus
the 7-bit sum checksum, and unescapeSysex inverts that. -/
theorem unescape_escape_roundtrip (b : List Nat) (hb : b ≠ []) (h : ∀ x ∈ b, x < 256) :
    unescapeSysex (escapeSysex b) = some b := by
  have hmain := unescapeAux_escape b hb h [] 0
  simpa [unescapeSysex, escapeSysex] using hmain

/-- Witness for C1: the spec example bytes [0x41, 0x42] survive the round
trip. -/
theorem unescape_escape_roundtrip_witness :
    unescapeSysex (escapeSysex [65, 66]) = some [65, 66] :=
  unescape_escape_roundtrip [65, 66] (by decide) (by decide)

/-- The unescape loop only reaches its out-of-bounds read when the whole input
has length exactly 1. -/
theorem unescapeAux_isSome : ∀ (d : List Nat), d.length ≠ 1 → ∀ (acc : List Nat) (chk : Nat),
    unescapeAux d acc chk ≠ none
  | [], _, acc, chk => by simp [unescapeAux]
  | [a], h, _, _ => by simp at h
  | [a, b], _, acc, chk => by simp [unescapeAux]
  | [a, b, c], _, acc, chk => by
      simp only [unescapeAux]
      split <;> simp
  | a :: b :: c :: d :: rest, _, acc, chk => by
      simp only [unescapeAux]
      exact unescapeAux_isSome (c :: d :: rest) (by simp) _ _

/-- C10: unescapeSysex indexes only within its input for inputs of length 0,
even length, or odd length at least 3; the out-of-bounds read (none in this
total embedding) is reachable exactly at input length 1. -/
theorem unescapeSysex_oob_iff (d : List Nat) :
    unescapeSysex d = none ↔ d.length = 1 := by
  constructor
  · intro h
    by_contra hne
    exact unescapeAux_isSome d hne [] 0 h
  · intro h
    obtain ⟨a, rfl⟩ := List.length_eq_one.mp h
    rfl

/-- Running the unescape loop on an even-length input decodes every byte pair
and never reaches the checksum branch. -/
theorem unescapeAux_even : ∀ (d : List Nat), d.length % 2 = 0 →
    ∀ (acc : List Nat) (chk : Nat),
    unescapeAux d acc chk = some (acc.reverse ++ decodePairs d)
  | [], _, acc, chk => by simp [unescapeAux, decodePairs]
  | [a], h, _, _ => by simp at h
  | [a, b], _, acc, chk => by simp [unescapeAux, decodePairs]
  | [a, b, c], h, _, _ => by simp only [List.length_cons, List.length_nil] at h; omega
  | a :: b :: c :: d :: rest, h, acc, chk => by
      have hlen : (c :: d :: rest).length % 2 = 0 := by
        simp only [List.length_cons] at h ⊢
        omega
      have ih := unescapeAux_even (c :: d :: rest) hlen
        ((a ||| (b <<< 4)) % 256 :: acc) ((chk + (a ||| (b <<< 4)) % 256) % 256)
      simp only [unescapeAux, decodePairs]
      rw [ih]
      simp [decodePairs]

/-- C4 (amended): unescapeSysex performs no length-shape validation: on an
even-length wire buffer it decodes every byte pair, never checks a checksum,
and returns the decoded bytes instead of reporting a malformed-message
failure. -/
theorem unescape_even_no_failure (d : List Nat) (h : d.length % 2 = 0) :
    unescapeSysex d = some (decodePairs d) := by
  simpa [unescapeSysex] using unescapeAux_even d h [] 0

/-- Witness for the amended C4: the even-length buffer [2, 4] decodes to the
single byte 0x42. -/
theorem unescape_even_no_failure_witness : unescapeSysex [2, 4] = some [66] := by
  rw [unescape_even_no_failure [2, 4] (by decide)]
  decide

/-- C4 counterexample: the even-length wire buffer [1, 4] is not rejected:
unescapeSysex returns the decoded byte 0x41, not the empty failure result and
not the out-of-bounds marker. -/
theorem unescape_even_counterexample :
    unescapeSysex [1, 4] = some [65] ∧ unescapeSysex [1, 4] ≠ some [] ∧
    unescapeSysex [1, 4] ≠ none := by decide

end Matrix1000

namespace Matrix1000

/-- C2 counterexample: a stream of one duplicated single program dump followed
by the remaining 99 distinct ones (101 messages, 100 distinct program numbers)
is NOT judged complete by isBankDumpFinished, while a stream of 100 messages
covering only 99 distinct program numbers IS judged complete: completion is
decided by message count, not by distinct program numbers. -/
theorem bankDump_distinctness_counterexample :
    isBankDumpFinished
      (progDump 0 :: progDump 0 :: (List.range 99).map (fun i => progDump (i + 1))) = false ∧
    isBankDumpFinished
      (progDump 0 :: progDump 0 :: (List.range 98).map (fun i => progDump (i + 1))) = true := by
  decide

/-- C2 (amended): bank-dump completion is decided by the number of messages
classified as single program dumps reaching numberOfPatches: for a stream
consisting solely of single program dumps it is judged complete exactly when
the stream has 100 messages, regardless of how many distinct program numbers
occur. -/
theorem isBankDumpFinished_by_message_count (l : List MidiMessage)
    (h : ∀ m ∈ l, isSingleProgramDump m = true) :
    isBankDumpFinished l = true ↔ l.length = 100 := by
  unfold isBankDumpFinished numberOfPatches
  rw [List.countP_eq_length.mpr h]
  exact beq_iff_eq

/-- Witness for the amended C2: 100 distinct single program dumps are judged
complete. -/
theorem isBankDumpFinished_by_message_count_witness :
    isBankDumpFinished ((List.range 100).map progDump) = true :=
  (isBankDumpFinished_by_message_count ((List.range 100).map progDump)
    (by decide)).mpr (by decide)

/-- C3 counterexample: the buffer [0x10, 0x06, 0x01, 0x00] is simultaneously an
edit buffer dump and a single program dump, so the four categories are not
mutually exclusive. -/
theorem classification_overlap_counterexample :
    isEditBufferDump (MidiMessage.sysex [16, 6, 1, 0]) = true ∧
    isSingleProgramDump (MidiMessage.sysex [16, 6, 1, 0]) = true := by
  decide

/-- C3 (amended): classification is total but not mutually exclusive between
the two dump kinds: isEditBufferDump coincides with isSingleProgramDump
restricted to payload byte 3 being zero (so every edit buffer dump is also a
single program dump); both dump classifiers entail isOwnSysex; and every buffer
falls in at least one of the four categories, the only overlap being the one
just described. -/
theorem classification_not_exclusive (m : MidiMessage) :
    isEditBufferDump m = (isSingleProgramDump m && ((getSysExData m).getD 3 0 == 0)) ∧
    (isSingleProgramDump m && isOwnSysex m) = isSingleProgramDump m ∧
    (isEditBufferDump m = true ∨ isSingleProgramDump m = true ∨
      (isOwnSysex m = true ∧ isSingleProgramDump m = false) ∨ isOwnSysex m = false) := by
  cases m with
  | empty => decide
  | sysex p =>
    refine ⟨?_, ?_, ?_⟩
    · simp only [isEditBufferDump, isSingleProgramDump]
      generalize (getSysExData (MidiMessage.sysex p)).getD 3 0 = t
      by_cases h3 : t = 0
      · simp [h3]
      · have hb : (t == 0) = false := by simp [h3]
        simp [hb]
    · cases hO : isOwnSysex (MidiMessage.sysex p) with
      | false => simp [isSingleProgramDump, hO]
      | true => simp [hO]
    · cases hS : isSingleProgramDump (MidiMessage.sysex p) with
      | true => exact Or.inr (Or.inl rfl)
      | false =>
        cases hO : isOwnSysex (MidiMessage.sysex p) with
        | true => exact Or.inr (Or.inr (Or.inl ⟨rfl, rfl⟩))
        | false => exact Or.inr (Or.inr (Or.inr rfl))

/-- C5: decoding a 172-byte unescaped global-settings block whose byte 34 is
0xFE yields -2 for Master Transpose (table row 0, two's-complement, display
offset 0); a block of any other length decodes to no fields at all. -/
theorem globalSettings_decode (block : List Nat) :
    (block.length = 172 → block.getD 34 0 = 254 →
      (setGlobalSettingsFromUnescaped block).getD 0 0 = -2) ∧
    (block.length ≠ 172 → setGlobalSettingsFromUnescaped block = []) := by
  constructor
  · intro h1 h2
    rw [List.getD_eq_getElem?_getD] at h2
    simp only [setGlobalSettingsFromUnescaped, if_pos h1, kMatrix1000GlobalSettings,
      List.map_cons, List.getD_cons_zero]
    simp [h2, toInt8]
  · intro h
    simp [setGlobalSettingsFromUnescaped, h]

/-- Witness for C5: the concrete block block172 (byte 34 = 0xFE, length 172)
decodes Master Transpose to -2, and the 1-byte block decodes to no fields. -/
theorem globalSettings_decode_witness :
    (setGlobalSettingsFromUnescaped block172).getD 0 0 = -2 ∧
    setGlobalSettingsFromUnescaped [0] = [] :=
  ⟨(globalSettings_decode block172).1 (by decide) (by decide),
   (globalSettings_decode [0]).2 (by decide)⟩

/-- C6 counterexample: errors are signalled silently in-band, not as typed
failures: unescapeSysex on the bad-checksum buffer [0, 0, 1] returns the empty
byte vector, the same value a successful decode of the empty buffer returns,
and patchFromSysex on a message that is no edit buffer dump returns a patch
with empty data instead of failing. -/
theorem errors_in_band_counterexample :
    unescapeSysex [0, 0, 1] = some [] ∧ unescapeSysex [] = some [] ∧
    patchFromSysex MidiMessage.empty = some [] := by
  decide

/-- C6 (amended): codec/classifier failures are reported in-band as sentinel
values rather than typed failures: any checksum mismatch makes unescapeSysex
return the empty byte vector, and any non-edit-buffer message makes
patchFromSysex return a patch with empty data (only a debug assertion fires). -/
theorem errors_in_band (lo hi c : Nat) (m : MidiMessage)
    (hc : c ≠ ((lo ||| (hi <<< 4)) % 256) % 128) (hm : isEditBufferDump m = false) :
    unescapeSysex [lo, hi, c] = some [] ∧ patchFromSysex m = some [] := by
  constructor
  · have h : ¬ (c = ((0 + (lo ||| (hi <<< 4)) % 256) % 256) % 128) := by
      intro he
      exact hc (by omega)
    simp only [unescapeSysex, unescapeAux]
    rw [if_neg h]
  · simp [patchFromSysex, hm]

/-- Witness for the amended C6: checksum byte 1 against actual checksum 0, and
a non-sysex edit-buffer decode, both yield the empty sentinel. -/
theorem errors_in_band_witness :
    unescapeSysex [0, 0, 1] = some [] ∧ patchFromSysex (MidiMessage.sysex [1]) = some [] :=
  errors_in_band 0 0 1 (MidiMessage.sysex [1]) (by decide) (by decide)

/-- C7 counterexample: saveEditBufferToProgram(1000), whose argument is outside
[0, 1000), still produces a full STORE_EDIT_BUFFER wire message (bank byte 10,
slot byte 0) instead of failing without emitting a message. -/
theorem saveEditBuffer_no_validation_counterexample :
    saveEditBufferToProgram 1000 = MidiMessage.sysex [16, 6, 14, 0, 10, 0] ∧
    saveEditBufferToProgram 1000 ≠ MidiMessage.empty := by
  decide

/-- C7 (amended): createBankSelect does validate its bank number and emits the
empty message on an out-of-range bank, but saveEditBufferToProgram performs no
release-mode validation: for every programNumber, in range or not, it emits the
STORE_EDIT_BUFFER message with slot byte programNumber % 100 and bank byte
(programNumber / 100) % 256. -/
theorem builders_range_validation (b : Int) (pn : Nat) (hb : b < 0 ∨ 10 ≤ b) :
    createBankSelect (MidiBankNumber.fromZeroBase b) = MidiMessage.empty ∧
    saveEditBufferToProgram pn ≠ MidiMessage.empty ∧
    getSysExData (saveEditBufferToProgram pn) =
      [OBERHEIM, MATRIX6_1000, STORE_EDIT_BUFFER, pn % 100 % 256, pn / 100 % 256, 0] := by
  refine ⟨?_, by simp [saveEditBufferToProgram], by simp [saveEditBufferToProgram, getSysExData]⟩
  have hv : (MidiBankNumber.fromZeroBase b).isValid = false := by
    simp only [MidiBankNumber.isValid, MidiBankNumber.fromZeroBase, decide_eq_false_iff_not]
    omega
  simp [createBankSelect, hv]

/-- Witness for the amended C7: bank 10 is rejected silently while program 1001
still yields a message with slot byte 1 and bank byte 10. -/
theorem builders_range_validation_witness :
    createBankSelect (MidiBankNumber.fromZeroBase 10) = MidiMessage.empty ∧
    saveEditBufferToProgram 1001 ≠ MidiMessage.empty ∧
    getSysExData (saveEditBufferToProgram 1001) = [16, 6, 14, 1, 10, 0] := by
  have h := builders_range_validation 10 1001 (Or.inr (by decide))
  simpa [OBERHEIM, MATRIX6_1000, STORE_EDIT_BUFFER] using h

/-- C8 counterexample: the static global-settings table does not have 28
rows. -/
theorem settings_table_not_28 : kMatrix1000GlobalSettings.length ≠ 28 := by
  decide

/-- C8 (amended): the static global-settings table kMatrix1000GlobalSettings
contains exactly 27 rows, each carrying a sysex offset, a typed named value
(name, group, type, range, enum choices), a sign-handling flag and a display
offset. -/
theorem settings_table_27 : kMatrix1000GlobalSettings.length = 27 := by
  decide

/-- C9: for every programNumber below 1000, the data-request message built by
requestPatch carries as its number byte the low 8 bits of the full
programNumber (programNumber % 256), so for programNumber in [128, 256) the
emitted byte exceeds 0x7F. -/
theorem requestPatch_number_byte (pn : Nat) (h : pn < 1000) :
    (getSysExData ((requestPatch pn).getD 2 MidiMessage.empty)).getD 4 0 = pn % 256 ∧
    (128 ≤ pn ∧ pn < 256 →
      127 < (getSysExData ((requestPatch pn).getD 2 MidiMessage.empty)).getD 4 0) := by
  have hbyte : (getSysExData ((requestPatch pn).getD 2 MidiMessage.empty)).getD 4 0
      = pn % 256 := by
    simp [requestPatch, createRequest, getSysExData, SINGLE_PATCH, List.getD]
  refine ⟨hbyte, fun hr => ?_⟩
  rw [hbyte]
  omega

/-- Witness for C9: requesting program 130 emits number byte 130 > 0x7F. -/
theorem requestPatch_number_byte_witness :
    127 < (getSysExData ((requestPatch 130).getD 2 MidiMessage.empty)).getD 4 0 :=
  (requestPatch_number_byte 130 (by decide)).2 (by decide)

end Matrix1000
